import Mathlib

/-!
Verification of dstui (a Synology DownloadStation TUI client written in Rust)
against its natural-language specification.

The Rust sources are shallowly embedded below:
pure functions become Lean functions, the stateful `App` becomes a record with
explicit state-passing operations, machine integers (`u64`/`usize`) become
`Nat` (the program only ever adds with `saturating_add`/`saturating_sub`,
divides, and compares, so no wrap-around is observable), fallible code
returns `Option`/`Except`, and the `f64` ratio is modelled with `ℚ` (the two
byte counts are integers and the quotients of interest are exact).
-/

namespace Dstui

/-! ## Data model, from src/api.rs -/

/-- `TaskStatus` (src/api.rs): the API provides the status either as a number
or as a string. `u64` codes become `Nat`. -/
inductive TaskStatus where
  | Code (code : Nat)
  | Name (s : String)
deriving DecidableEq

/-- `TaskStatus::label` (src/api.rs lines 1082-1141): a string status is used
verbatim; a numeric code is mapped through the fixed table; anything else is
`"unknown"`. -/
def TaskStatus.label : TaskStatus → String
  | TaskStatus.Name s => s
  | TaskStatus.Code code =>
    match code with
    | 1 => "waiting"
    | 2 => "downloading"
    | 3 => "paused"
    | 4 => "finishing"
    | 5 => "finished"
    | 6 => "hash_checking"
    | 7 => "preseeding"
    | 8 => "seeding"
    | 9 => "filehost_waiting"
    | 10 => "extracting"
    | 11 => "preprocessing"
    | 12 => "preprocesspass"
    | 13 => "downloaded"
    | 14 => "postprocessing"
    | 15 => "captcha_needed"
    | 101 => "error"
    | 102 => "broken_link"
    | 103 => "dest_not_exists"
    | 104 => "dest_deny"
    | 105 => "disk_full"
    | 106 => "quota_reached"
    | 107 => "timeout"
    | 108 => "exceed_max_fs_size"
    | 109 => "exceed_max_temp_fs_size"
    | 110 => "exceed_max_dest_fs_size"
    | 111 => "name_too_long_encryption"
    | 112 => "name_too_long"
    | 113 => "duplicate_torrent"
    | 114 => "file_does_not_exist"
    | 115 => "premium_required"
    | 116 => "not_supported_type"
    | 117 => "ftp_encrypt_not_supported"
    | 118 => "extract_failed"
    | 119 => "extract_wrong_pasword"
    | 120 => "extract_invalid_archive"
    | 121 => "extract_quota_reached"
    | 122 => "extract_disk_full"
    | 123 => "invalid_torrent"
    | 124 => "account_required"
    | 125 => "try_it_later"
    | 126 => "encryption_error"
    | 127 => "missing_python_executable"
    | 128 => "private_video"
    | 129 => "extract_folder_does_not_exist"
    | 130 => "nzb_missing_article"
    | 131 => "duplicate_edonkey_link"
    | 132 => "duplicate_dest_file"
    | 133 => "archive_repair_failed"
    | 134 => "invalid_account_password"
    | _ => "unknown"

/-- `TransferInfo` (src/api.rs): every field is optional in the JSON. -/
structure TransferInfo where
  size_downloaded : Option Nat
  size_uploaded : Option Nat
  downloaded_pieces : Option Nat
  speed_download : Option Nat
  speed_upload : Option Nat
deriving DecidableEq

/-- `AdditionalInfo` (src/api.rs). Only the `transfer` field is consulted by
the functions the claims are about; the `detail`, `file`, `peer` and
`tracker` fields are carried as opaque-to-the-claims data and are omitted
from the embedding because no embedded operation reads them. -/
structure AdditionalInfo where
  transfer : Option TransferInfo
deriving DecidableEq

/-- `DownloadTask` (src/api.rs). -/
structure DownloadTask where
  id : String
  size : Nat
  status : TaskStatus
  title : String
  task_type : String
  username : String
  additional : Option AdditionalInfo
deriving DecidableEq

/-- `DownloadTask::upload_download_ratio` (src/api.rs lines 1021-1032):
`None` when any of the optional layers is missing or when the downloaded
byte count is zero, otherwise the exact quotient (the Rust code divides two
`u64` values as `f64`; the quotient is modelled in `ℚ`). -/
def DownloadTask.upload_download_ratio (t : DownloadTask) : Option ℚ := do
  let additional ← t.additional
  let transfer ← additional.transfer
  let downloaded ← transfer.size_downloaded
  let uploaded ← transfer.size_uploaded
  if downloaded = 0 then
    none
  else
    some ((uploaded : ℚ) / (downloaded : ℚ))

/-- `TaskActionResponse` (src/api.rs): one per-task result of a batch
pause/resume/delete call. -/
structure TaskActionResponse where
  error : Nat
  id : String
deriving DecidableEq

/-- `TaskActionResponseWrapper` (src/api.rs): the WebAPI envelope around the
per-task results; `error` holds the envelope-level `SynologyError` code. -/
structure TaskActionResponseWrapper where
  success : Bool
  data : Option (List TaskActionResponse)
  error : Option Nat
deriving DecidableEq

/-- The distinct error outcomes of `pause_task` / `resume_task` /
`delete_task` (the Rust code produces formatted strings; the embedding keeps
the reported id and code structured so the theorems can talk about them). -/
inductive TaskActionError where
  | apiFailure (code : Option Nat)
  | noData
  | taskFailed (id : String) (code : Nat)
deriving DecidableEq

/-- Envelope handling of `SynologyClient::pause_task` (src/api.rs lines
768-790), applied to the parsed wrapper: reject `success=false`, reject a
missing `data` field, then report the FIRST per-task result whose error code
is non-zero (`results.into_iter().find(|r| r.error != 0)`). -/
def pause_task_result (w : TaskActionResponseWrapper) : Except TaskActionError Unit :=
  if w.success = false then
    Except.error (TaskActionError.apiFailure w.error)
  else
    match w.data with
    | none => Except.error TaskActionError.noData
    | some results =>
      match results.find? (fun r => r.error != 0) with
      | some failed => Except.error (TaskActionError.taskFailed failed.id failed.error)
      | none => Except.ok ()

/-- Envelope handling of `SynologyClient::resume_task` (src/api.rs lines
814-830): same envelope checks, but the failing results are collected into a
vector `errs` and `errs.pop()` is reported, i.e. the LAST failing entry. -/
def resume_task_result (w : TaskActionResponseWrapper) : Except TaskActionError Unit :=
  if w.success = false then
    Except.error (TaskActionError.apiFailure w.error)
  else
    match w.data with
    | none => Except.error TaskActionError.noData
    | some responses =>
      let errs := (responses.filter (fun r => r.error != 0)).map (fun r => (r.id, r.error))
      match errs.getLast? with
      | some (bad_id, code) => Except.error (TaskActionError.taskFailed bad_id code)
      | none => Except.ok ()

/-- Envelope handling of `SynologyClient::delete_task` (src/api.rs lines
869-891): identical to `pause_task`, reporting the FIRST failing result. -/
def delete_task_result (w : TaskActionResponseWrapper) : Except TaskActionError Unit :=
  if w.success = false then
    Except.error (TaskActionError.apiFailure w.error)
  else
    match w.data with
    | none => Except.error TaskActionError.noData
    | some results =>
      match results.find? (fun r => r.error != 0) with
      | some failed => Except.error (TaskActionError.taskFailed failed.id failed.error)
      | none => Except.ok ()

/-! ## Utilities, from src/util.rs -/

/-- The characters of Rust `format!("{percentage:>3}%")` (src/util.rs line
49): the decimal rendering of the percentage right-aligned to width 3 with
spaces, followed by a percent sign. -/
def percent_text (percentage : Nat) : List Char :=
  let digits := (toString percentage).data
  List.replicate (3 - digits.length) ' ' ++ digits ++ ['%']

/-- `render_progress_bar` (src/util.rs lines 48-72): a `width`-cell bar whose
middle cells carry the percentage text, wrapped in brackets. The Rust
`percent_text.chars().nth(i - start).unwrap()` cannot fail (inside the text
slice `i - start < text_len`); the embedding uses `getD ' '` in its place. -/
def render_progress_bar (percentage : Nat) (width : Nat) : String :=
  let text := percent_text percentage
  let text_len := text.length
  let filled := min (percentage * width / 100) width
  let start := (width - text_len) / 2
  let stop := start + text_len
  let bar := (List.range width).map (fun i =>
    if start ≤ i ∧ i < stop then
      (text.get? (i - start)).getD ' '
    else if i < filled then '█' else ' ')
  String.mk ('[' :: bar ++ [']'])

/-! ## Scroll clamping on render, from src/ui.rs -/

/-- The scroll clamp performed by `create_popup` (src/ui.rs lines 586-593):
`visible_lines = popup_rect.height - 2` (saturating), `max_scroll =
line_count - visible_lines` (saturating), and the stored position is pulled
down to `max_scroll` when it exceeds it. Returns the stored offset after the
render pass. -/
def clamp_popup_scroll (popup_text_line_count : Nat) (popup_height : Nat)
    (scroll_position : Nat) : Nat :=
  let visible_lines := popup_height - 2
  let max_scroll := popup_text_line_count - visible_lines
  if scroll_position > max_scroll then max_scroll else scroll_position

/-- The identical clamp for the info/detail panel (src/ui.rs lines 330-342)
with `visible_lines = inner_area[1].height - 1`. -/
def clamp_info_panel_scroll (info_text_line_count : Nat) (inner_height : Nat)
    (scroll_position : Nat) : Nat :=
  let visible_lines := inner_height - 1
  let max_scroll := info_text_line_count - visible_lines
  if scroll_position > max_scroll then max_scroll else scroll_position

/-- The clamp of `create_filepicker_popup` (src/ui.rs lines 677-683), same
shape as `create_popup` over the file rows. -/
def clamp_filepicker_scroll (row_count : Nat) (popup_height : Nat)
    (scroll_position : Nat) : Nat :=
  let visible_lines := popup_height - 2
  let max_scroll := row_count - visible_lines
  if scroll_position > max_scroll then max_scroll else scroll_position

/-! ## The controller state, from src/app.rs

`App` (src/app.rs lines 25-72). A ratatui `TableState` is represented by its
selected index (`Option Nat`), which is the only part of it the program
reads. Fields that no embedded operation touches (`file_path`, `dir_list`,
`events`, the static `headers`/`tabs` string lists, `extended_items`,
`info_panel_scrollbarstate`, `dsconfig`) are omitted. -/
structure App where
  running : Bool
  show_help : Bool
  show_server_info : Bool
  refreshing_tasks : Bool
  show_add_task_from_url : Bool
  show_add_task_from_file : Bool
  selected_row : Option Nat
  selected_row_filepicker : Option Nat
  popup_scroll_position : Nat
  info_panel_scroll_position : Nat
  selected_tab : Nat
  items : List DownloadTask
  error_message : Option String
  show_error_popup : Bool
  show_delete_confirmation_popup : Bool
  is_popup_active : Bool
deriving DecidableEq

/-- `App::default` (src/app.rs lines 74-118): row 0 pre-selected, everything
else off/empty. -/
def app_default : App where
  running := true
  show_help := false
  show_server_info := false
  refreshing_tasks := false
  show_add_task_from_url := false
  show_add_task_from_file := false
  selected_row := some 0
  selected_row_filepicker := none
  popup_scroll_position := 0
  info_panel_scroll_position := 0
  selected_tab := 0
  items := []
  error_message := none
  show_error_popup := false
  show_delete_confirmation_popup := false
  is_popup_active := false

/-- `App::quit`. -/
def App.quit (a : App) : App := { a with running := false }

/-- `App::selected_table_row_index` (src/app.rs lines 322-324):
`self.selected_row.selected().unwrap_or(0)`. -/
def App.selected_table_row_index (a : App) : Nat := a.selected_row.getD 0

/-- `App::show_help_popup` (src/app.rs lines 327-330). -/
def App.show_help_popup (a : App) : App :=
  { a with show_help := true, is_popup_active := true }

/-- `App::show_server_info_popup` (src/app.rs lines 333-336). -/
def App.show_server_info_popup (a : App) : App :=
  { a with show_server_info := true, is_popup_active := true }

/-- `App::show_add_task_popup` (src/app.rs lines 339-342). -/
def App.show_add_task_popup (a : App) : App :=
  { a with show_add_task_from_url := true, is_popup_active := true }

/-- `App::show_add_task_file_picker` (src/app.rs lines 345-348). -/
def App.show_add_task_file_picker (a : App) : App :=
  { a with show_add_task_from_file := true, is_popup_active := true }

/-- `App::show_error_popup` (src/app.rs lines 351-354). -/
def App.show_error_popup_fn (a : App) : App :=
  { a with show_error_popup := true, is_popup_active := true }

/-- `App::show_delete_confirmation_popup` (src/app.rs lines 357-360). -/
def App.show_delete_confirmation_popup_fn (a : App) : App :=
  { a with show_delete_confirmation_popup := true, is_popup_active := true }

/-- `App::scroll_down` (src/app.rs lines 363-365): saturating add on the
popup scroll offset (`Nat` addition). -/
def App.scroll_down (a : App) : App :=
  { a with popup_scroll_position := a.popup_scroll_position + 1 }

/-- `App::scroll_up` (src/app.rs lines 368-370): saturating sub. -/
def App.scroll_up (a : App) : App :=
  { a with popup_scroll_position := a.popup_scroll_position - 1 }

/-- `App::close_all_popups` (src/app.rs lines 529-538): exactly the six
popup flags, the error message and `is_popup_active` are reset; nothing else
is touched. -/
def App.close_all_popups (a : App) : App :=
  { a with
    show_help := false
    show_server_info := false
    show_add_task_from_url := false
    show_add_task_from_file := false
    show_error_popup := false
    show_delete_confirmation_popup := false
    error_message := none
    is_popup_active := false }

/-- The id captured before a refresh in `App::load_tasks` (src/app.rs lines
405-409): the id of the task under the current selection, when both exist. -/
def App.prev_task_id (a : App) : Option String :=
  a.selected_row.bind (fun i => (a.items.get? i).map (fun t => t.id))

/-- `App::load_tasks` (src/app.rs lines 403-430; the identical function also
appears at src/ui/app.rs lines 61-87). The network fetch is passed in as its
result: `Except.ok tasks` for a successful `list_download_tasks`, otherwise
`Except.error e` with the display of the error. -/
def App.load_tasks (a : App) (fetched : Except String (List DownloadTask)) : App :=
  let prev_id := a.prev_task_id
  let a1 :=
    match fetched with
    | Except.ok tasks => { a with items := tasks }
    | Except.error e =>
      { a with
        error_message := some ("Failed to fetch tasks: " ++ e ++ "\n")
        items := [] }
  if a1.items.isEmpty then
    { a1 with selected_row := none }
  else
    let new_selection :=
      (prev_id.bind (fun i => a1.items.findIdx? (fun t => t.id = i))).orElse
        (fun _ => some 0)
    { a1 with selected_row := new_selection }

/-- The list index evaluated by `App::pause_task` (src/app.rs lines 498-500):
`self.items[idx]` with `idx = selected_table_row_index()`. The Rust indexing
panics exactly when this lookup is `none`. -/
def App.pause_task_lookup (a : App) : Option DownloadTask :=
  a.items.get? a.selected_table_row_index

/-- The list index evaluated by `App::delete_task` (src/app.rs lines
517-519), same shape as the pause lookup. -/
def App.delete_task_lookup (a : App) : Option DownloadTask :=
  a.items.get? a.selected_table_row_index

/-- The list index evaluated when the detail/info panel renders (src/ui.rs
lines 130-180): `download_tasks[self.selected_table_row_index()]`, where
`download_tasks = App::extend_task_info(self.items.clone())` has the same
length as `items`; the indexing panics exactly when this lookup is `none`. -/
def App.detail_panel_lookup (a : App) : Option DownloadTask :=
  a.items.get? a.selected_table_row_index

/-! ## Reachability

One step of the running program, restricted to the state-changing
transitions of `App::run`'s event loop (src/app.rs lines 144-196) that the
pure embedding covers. Each constructor corresponds to a key handled by
`App::handle_key_events` (src/app.rs lines 201-288) together with the
dispatch of the `AppEvent` it sends, or to a task-list refresh
(`Event::AutoRefresh` / `AppEvent::ManualRefresh`) with an arbitrary fetch
result. Network-calling actions other than the refresh are omitted, so every
`Step` is a transition the program itself can take. -/
inductive Step : App → App → Prop where
  /-- key `?`: sent unconditionally, dispatched to `show_help_popup`. -/
  | helpKey (a : App) : Step a a.show_help_popup
  /-- key `i`: sent unconditionally, dispatched to `show_server_info_popup`. -/
  | serverInfoKey (a : App) : Step a a.show_server_info_popup
  /-- key `a`: sent unconditionally, dispatched to `show_add_task_popup`. -/
  | addUrlKey (a : App) : Step a a.show_add_task_popup
  /-- key `A`: sent unconditionally, dispatched to `show_add_task_file_picker`. -/
  | addFileKey (a : App) : Step a a.show_add_task_file_picker
  /-- key `d`: sent unconditionally, dispatched to `show_delete_confirmation_popup`. -/
  | deleteConfirmKey (a : App) : Step a a.show_delete_confirmation_popup_fn
  /-- key `q`/`Esc` with a popup active: `close_all_popups`. -/
  | closeKey (a : App) (h : a.is_popup_active = true) : Step a a.close_all_popups
  /-- key `q`/`Esc` with no popup active: `AppEvent::Quit`. -/
  | quitKey (a : App) (h : a.is_popup_active = false) : Step a a.quit
  /-- key `j` with a popup (not the file picker) active: `AppEvent::ScrollDown`. -/
  | scrollDownKey (a : App) (hf : a.show_add_task_from_file = false)
      (h : a.is_popup_active = true) : Step a a.scroll_down
  /-- key `k` with a popup (not the file picker) active: `AppEvent::ScrollUp`. -/
  | scrollUpKey (a : App) (hf : a.show_add_task_from_file = false)
      (h : a.is_popup_active = true) : Step a a.scroll_up
  /-- a task-list refresh (`load_tasks`) with an arbitrary fetch result. -/
  | refresh (a : App) (fetched : Except String (List DownloadTask)) :
      Step a (a.load_tasks fetched)

/-- The states the program can reach from `App::default()`. -/
def Reachable (a : App) : Prop :=
  Relation.ReflTransGen Step app_default a

/-! ## Concrete example data -/

/-- A task carrying only an id (the other fields are irrelevant to selection
tracking). -/
def mkTask (i : String) : DownloadTask :=
  { id := i, size := 0, status := TaskStatus.Code 2, title := i, task_type := "bt"
    username := "user", additional := none }

def taskA : DownloadTask := mkTask "A"

def taskB : DownloadTask := mkTask "B"

def taskC : DownloadTask := mkTask "C"

def taskD : DownloadTask := mkTask "D"

def taskX : DownloadTask := mkTask "X"

def taskY : DownloadTask := mkTask "Y"

/-- A state holding tasks `[A,B,C]` with `B` (index 1) selected. -/
def appABC : App :=
  { app_default with items := [taskA, taskB, taskC], selected_row := some 1 }

/-- The same task list with `C` (index 2) selected. -/
def appABC_selC : App :=
  { app_default with items := [taskA, taskB, taskC], selected_row := some 2 }

/-- A transfer with 100 bytes downloaded and 200 uploaded. -/
def ratio_transfer : TransferInfo :=
  { size_downloaded := some 100, size_uploaded := some 200
    downloaded_pieces := none, speed_download := none, speed_upload := none }

def ratio_additional : AdditionalInfo := { transfer := some ratio_transfer }

/-- A task with transfer data present: uploaded=200, downloaded=100. -/
def ratio_task : DownloadTask :=
  { id := "dbid_1", size := 0, status := TaskStatus.Code 8, title := "t"
    task_type := "bt", username := "user", additional := some ratio_additional }

/-- A successful envelope whose per-task results contain two failures, in
this order: id "a" with code 1, then id "b" with code 2. -/
def two_failures_wrapper : TaskActionResponseWrapper :=
  { success := true
    data := some [{ error := 1, id := "a" }, { error := 2, id := "b" }]
    error := none }

/-- The state after refreshing the default state with an empty task list. -/
def empty_refresh_state : App := app_default.load_tasks (Except.ok [])

/-- The state after opening the help popup and then the server-info popup
(keys `?` then `i`, both sent unconditionally by `handle_key_events`). -/
def help_then_info_state : App := app_default.show_help_popup.show_server_info_popup

/-- The state after opening the help popup and scrolling down once in it
(keys `?` then `j`). -/
def scrolled_help_state : App := app_default.show_help_popup.scroll_down

/-! ## Claims -/

/-- Claim C1: on a refresh, `load_tasks` captures the id of the currently
selected task; with a non-empty new list the selection becomes the new index
of that id when found, and index 0 when the id is not found or there was no
previous selection; with an empty new list the selection is cleared to
`none`. In particular, for `[A,B,C]` with `B` selected a refresh returning
`[X,Y]` resets the selection to index 0. -/
theorem C1_load_tasks_restores_selection_by_id :
    (∀ (a : App) (ts : List DownloadTask),
      (a.load_tasks (Except.ok ts)).items = ts
      ∧ (ts = [] → (a.load_tasks (Except.ok ts)).selected_row = none)
      ∧ (ts ≠ [] → (a.load_tasks (Except.ok ts)).selected_row =
          some ((a.prev_task_id.bind (fun i => ts.findIdx? (fun t => t.id = i))).getD 0)))
    ∧ appABC.prev_task_id = some "B"
    ∧ (appABC.load_tasks (Except.ok [taskX, taskY])).selected_row = some 0 := by
  have horelse : ∀ (o : Option Nat), (o.orElse fun _ => some 0) = some (o.getD 0) := by
    intro o
    cases o <;> rfl
  refine ⟨fun a ts => ⟨?_, ?_, ?_⟩, by decide, by decide⟩
  · simp only [App.load_tasks]
    split <;> rfl
  · rintro rfl
    rfl
  · intro hne
    simp only [App.load_tasks]
    rw [if_neg]
    · simp only [horelse]
    · simp [List.isEmpty_iff, hne]

/-- Claim C1 witness: the general statement applied to the concrete state
`[A,B,C]` with `B` selected and the refreshed list `[X,Y]`: since `B` is
absent, `findIdx?` is `none` and the selection defaults to index 0. -/
theorem C1_witness :
    (appABC.load_tasks (Except.ok [taskX, taskY])).selected_row =
      some ((appABC.prev_task_id.bind
        (fun i => [taskX, taskY].findIdx? (fun t => t.id = i))).getD 0) :=
  (C1_load_tasks_restores_selection_by_id.1 appABC [taskX, taskY]).2.2 (by decide)

/-- Claim C2: the spec's safety invariant fails in the code. The state after
a refresh that returns zero tasks is reachable and has an empty list with
selection `none`, yet `App::pause_task` / `App::delete_task` (src/app.rs
lines 498-526) evaluate `self.items[idx]` with
`idx = selected().unwrap_or(0) = 0`, and the detail-panel render (src/ui.rs
lines 130-180) evaluates `download_tasks[0]`: all three lookups are out of
bounds (`none`), i.e. the Rust indexing panics. -/
theorem C2_empty_tasklist_indexing_out_of_bounds :
    Reachable empty_refresh_state
    ∧ empty_refresh_state.items = []
    ∧ empty_refresh_state.selected_row = none
    ∧ empty_refresh_state.pause_task_lookup = none
    ∧ empty_refresh_state.delete_task_lookup = none
    ∧ empty_refresh_state.detail_panel_lookup = none :=
  ⟨Relation.ReflTransGen.single (Step.refresh app_default (Except.ok [])),
    by decide, by decide, by decide, by decide, by decide⟩

/-- Claim C3: applied to a `success=true` envelope whose per-task results
fail as `[(id "a", code 1), (id "b", code 2)]`, `pause_task` and
`delete_task` report the first failure (id "a", code 1) as the claim states,
but `resume_task` pops the collected failure vector and reports the LAST
failure (id "b", code 2), contradicting the claim (and its own comment that
it uses exactly the same logic as `pause_task`). -/
theorem C3_resume_reports_last_failure_not_first :
    pause_task_result two_failures_wrapper =
      Except.error (TaskActionError.taskFailed "a" 1)
    ∧ delete_task_result two_failures_wrapper =
      Except.error (TaskActionError.taskFailed "a" 1)
    ∧ resume_task_result two_failures_wrapper =
      Except.error (TaskActionError.taskFailed "b" 2)
    ∧ Except.error (TaskActionError.taskFailed "b" 2) ≠
      (Except.error (TaskActionError.taskFailed "a" 1) : Except TaskActionError Unit) := by
  refine ⟨rfl, rfl, rfl, ?_⟩
  intro h
  injection h with h1
  injection h1 with h2 h3
  exact absurd h2 (by decide)

/-- Claim C4 counterexample: pressing `?` and then `i` (both keys are
handled unconditionally) reaches a state in which the help popup and the
server-info popup are active simultaneously, refuting "at most one popup is
active at any reachable state". -/
theorem C4_counterexample_two_popups_active :
    Reachable help_then_info_state
    ∧ help_then_info_state.show_help = true
    ∧ help_then_info_state.show_server_info = true :=
  ⟨Relation.ReflTransGen.tail
      (Relation.ReflTransGen.single (Step.helpKey app_default))
      (Step.serverInfoKey app_default.show_help_popup),
    rfl, rfl⟩

/-- Claim C4 (amended): opening a popup activates that popup's flag and
`is_popup_active` but does not deactivate a popup that was already active,
so states with two popup kinds active simultaneously are reachable. -/
theorem C4_open_does_not_replace_existing_popup :
    (∀ a : App,
      a.show_server_info_popup.show_server_info = true
      ∧ a.show_server_info_popup.is_popup_active = true
      ∧ a.show_server_info_popup.show_help = a.show_help
      ∧ a.show_server_info_popup.show_add_task_from_url = a.show_add_task_from_url
      ∧ a.show_server_info_popup.show_add_task_from_file = a.show_add_task_from_file
      ∧ a.show_server_info_popup.show_error_popup = a.show_error_popup
      ∧ a.show_server_info_popup.show_delete_confirmation_popup
          = a.show_delete_confirmation_popup
      ∧ a.show_help_popup.show_help = true
      ∧ a.show_help_popup.show_server_info = a.show_server_info)
    ∧ (Reachable app_default.show_help_popup.show_server_info_popup
        ∧ app_default.show_help_popup.show_server_info_popup.show_help = true
        ∧ app_default.show_help_popup.show_server_info_popup.show_server_info = true) :=
  ⟨fun _ => ⟨rfl, rfl, rfl, rfl, rfl, rfl, rfl, rfl, rfl⟩,
    ⟨Relation.ReflTransGen.tail
        (Relation.ReflTransGen.single (Step.helpKey app_default))
        (Step.serverInfoKey app_default.show_help_popup),
      rfl, rfl⟩⟩

/-- Claim C5 counterexample: from a reachable state with the help popup open
and its scroll offset at 1, `close_all_popups` leaves the popup scroll
offset at 1: closing does not reset the popup-owned scroll position. -/
theorem C5_counterexample_close_keeps_scroll :
    Reachable scrolled_help_state
    ∧ scrolled_help_state.close_all_popups.popup_scroll_position = 1
    ∧ scrolled_help_state.close_all_popups.popup_scroll_position ≠ 0 :=
  ⟨Relation.ReflTransGen.tail
      (Relation.ReflTransGen.single (Step.helpKey app_default))
      (Step.scrollDownKey app_default.show_help_popup rfl rfl),
    rfl, by decide⟩

/-- Claim C5 (amended): `close_all_popups` clears the six popup-active flags,
the error message and `is_popup_active`, but leaves the popup scroll offset
and the file-picker selection unchanged. -/
theorem C5_close_all_popups_clears_flags_only :
    ∀ a : App,
      a.close_all_popups.show_help = false
      ∧ a.close_all_popups.show_server_info = false
      ∧ a.close_all_popups.show_add_task_from_url = false
      ∧ a.close_all_popups.show_add_task_from_file = false
      ∧ a.close_all_popups.show_error_popup = false
      ∧ a.close_all_popups.show_delete_confirmation_popup = false
      ∧ a.close_all_popups.error_message = none
      ∧ a.close_all_popups.is_popup_active = false
      ∧ a.close_all_popups.popup_scroll_position = a.popup_scroll_position
      ∧ a.close_all_popups.selected_row_filepicker = a.selected_row_filepicker :=
  fun _ => ⟨rfl, rfl, rfl, rfl, rfl, rfl, rfl, rfl, rfl, rfl⟩

/-- Claim C6: status resolution is total: a string status is its own label
(`"seeding"` stays `"seeding"`), code 3 maps to `"paused"`, code 9999 (and
every code outside the fixed table, i.e. 0, 16..100 and everything from 135
up) resolves to `"unknown"`. -/
theorem C6_status_label_total :
    (∀ s : String, (TaskStatus.Name s).label = s)
    ∧ (TaskStatus.Name "seeding").label = "seeding"
    ∧ (TaskStatus.Code 3).label = "paused"
    ∧ (TaskStatus.Code 9999).label = "unknown"
    ∧ (∀ c : Nat, (c = 0 ∨ (16 ≤ c ∧ c ≤ 100) ∨ 135 ≤ c) →
        (TaskStatus.Code c).label = "unknown") := by
  refine ⟨fun s => rfl, rfl, by decide, by decide, ?_⟩
  intro c h
  simp only [TaskStatus.label]
  split <;> first | rfl | omega

/-- Claim C6 witness: the general unmapped-code statement applied at the
concrete code 200. -/
theorem C6_witness : (TaskStatus.Code 200).label = "unknown" :=
  C6_status_label_total.2.2.2.2 200 (by omega)

/-- Claim C7: for a task whose transfer data (and both byte counts) are
present, `upload_download_ratio` is `none` when the downloaded byte count is
0 and `uploaded / downloaded` otherwise; uploaded=200 with downloaded=100
gives ratio 2. -/
theorem C7_upload_download_ratio :
    (∀ (t : DownloadTask) (ad : AdditionalInfo) (tr : TransferInfo) (dl ul : Nat),
      t.additional = some ad → ad.transfer = some tr →
      tr.size_downloaded = some dl → tr.size_uploaded = some ul →
      (dl = 0 → t.upload_download_ratio = none)
      ∧ (dl ≠ 0 → t.upload_download_ratio = some ((ul : ℚ) / (dl : ℚ))))
    ∧ ratio_task.upload_download_ratio = some 2 := by
  constructor
  · intro t ad tr dl ul h1 h2 h3 h4
    constructor <;> intro hdl <;>
      simp [DownloadTask.upload_download_ratio, h1, h2, h3, h4, hdl]
  · show ratio_task.upload_download_ratio = some 2
    simp [DownloadTask.upload_download_ratio, ratio_task, ratio_additional, ratio_transfer]
    norm_num

/-- Claim C7 witness: the general statement applied to the concrete task
with uploaded=200 and downloaded=100. -/
theorem C7_witness :
    ratio_task.upload_download_ratio = some ((200 : ℚ) / (100 : ℚ)) :=
  (C7_upload_download_ratio.1 ratio_task ratio_additional ratio_transfer 100 200
    rfl rfl rfl rfl).2 (by norm_num)

/-- Claim C8 counterexample: for `[A,B,C]` with `B` selected, a refresh
returning `[A,C,D]` does NOT leave the selection at index 1: `B` is absent
from the new list, so `load_tasks` falls back to index 0, refuting the
claim's example. -/
theorem C8_counterexample_selection_is_zero :
    (appABC.load_tasks (Except.ok [taskA, taskC, taskD])).selected_row ≠ some 1
    ∧ (appABC.load_tasks (Except.ok [taskA, taskC, taskD])).selected_row = some 0 := by
  refine ⟨by decide, by decide⟩

/-- Claim C8 (amended): for `[A,B,C]` with `C` selected (positional index
2), a refresh returning `[A,C,D]` leaves the selection at index 1 (`C`'s new
position), not the stale positional index 2; with `B` selected the refresh
resets the selection to index 0 because `B` is absent. -/
theorem C8_refresh_tracks_id_not_position :
    (appABC_selC.load_tasks (Except.ok [taskA, taskC, taskD])).selected_row = some 1
    ∧ (appABC.load_tasks (Except.ok [taskA, taskC, taskD])).selected_row = some 0 := by
  refine ⟨by decide, by decide⟩

/-- Claim C9: for every percentage up to 100 and every width, the rendered
progress bar has exactly `width + 2` characters, and the two pinned examples
hold. -/
theorem C9_render_progress_bar_width :
    (∀ p w : Nat, p ≤ 100 → (render_progress_bar p w).length = w + 2)
    ∧ render_progress_bar 50 10 = "[███ 50%   ]"
    ∧ render_progress_bar 100 10 = "[███100%███]" := by
  refine ⟨?_, by decide, by decide⟩
  intro p w _
  unfold render_progress_bar
  simp [String.length, List.length_append]

/-- Claim C9 witness: the general width statement applied at percentage 50
and width 10. -/
theorem C9_witness : (render_progress_bar 50 10).length = 10 + 2 :=
  C9_render_progress_bar_width.1 50 10 (by omega)

/-- Claim C10: after the render-time clamp, every stored scroll offset is at
most `content_lines - viewport_lines` (truncated subtraction, i.e.
`max(N - V, 0)`), for the popup (viewport `height - 2`), the info/detail
panel (viewport `inner_height - 1`) and the file picker, whatever value
scroll-down inputs had previously stored. -/
theorem C10_scroll_clamped_on_render :
    ∀ n h pos : Nat,
      clamp_popup_scroll n h pos ≤ n - (h - 2)
      ∧ clamp_info_panel_scroll n h pos ≤ n - (h - 1)
      ∧ clamp_filepicker_scroll n h pos ≤ n - (h - 2)
      ∧ (pos ≤ n - (h - 2) → clamp_popup_scroll n h pos = pos)
      ∧ (pos ≤ n - (h - 1) → clamp_info_panel_scroll n h pos = pos) := by
  intro n h pos
  refine ⟨?_, ?_, ?_, ?_, ?_⟩ <;>
    simp only [clamp_popup_scroll, clamp_info_panel_scroll, clamp_filepicker_scroll] <;>
    split <;> omega

/-- Claim C10 witness: the clamp statements applied at content 30 lines,
height 12 and a stored offset of 1000. -/
theorem C10_witness :
    clamp_popup_scroll 30 12 1000 ≤ 30 - (12 - 2)
    ∧ clamp_info_panel_scroll 30 12 5 = 5 :=
  ⟨(C10_scroll_clamped_on_render 30 12 1000).1,
    (C10_scroll_clamped_on_render 30 12 5).2.2.2.2 (by omega)⟩

end Dstui
